import Mathlib

/-!
Verification development for the EHV substation digital twin.

The definitions below are a shallow embedding of the Python sources:
src/src/models/asset_models.py, src/src/models/ai_ml_models.py and
src/src/simulation/opendss_anomaly_simulator.py. Python floats are
modelled as rationals, Python ints as integers or naturals, Python
dictionaries keyed by asset type as total functions from String, and
code that can raise an exception is modelled with Except or with an
explicit oracle saying where the external engine raises.
-/

/- ===================== asset_models.py ===================== -/

/--
Shallow embedding of AssetHealth.calculate_health_score
(src/src/models/asset_models.py, lines 62-74).
The Python method reads self.degradation_rate and self.last_maintenance;
last_maintenance_days is the integer number of days between now and
self.last_maintenance, or none when last_maintenance is None (the
Python code then uses the literal 30).
-/
def calculate_health_score (degradation_rate : ℚ) (last_maintenance_days : Option ℤ)
    (operational_hours : ℤ) (fault_count : ℤ) : ℚ :=
  let age_factor := max 0 (100 - ((operational_hours : ℚ) / 8760) * 5)
  let fault_factor := max 0 (100 - (fault_count : ℚ) * 2)
  let base_health := age_factor * (7 / 10) + fault_factor * (3 / 10)
  let days_since_maintenance : ℚ :=
    match last_maintenance_days with
    | none => 30
    | some d => (d : ℚ)
  let degradation := min 20 (days_since_maintenance * degradation_rate)
  max 0 (min 100 (base_health - degradation))

/--
The mutable fields of CircuitBreaker read or written by operate
(src/src/models/asset_models.py): position, spring charge status,
close-coil health, and the three operation counters (the third being
mechanical.operating_cycles).
-/
structure CircuitBreakerState where
  position : String
  spring_charge_status : Bool
  close_coil_healthy : Bool
  total_operations : ℕ
  operations_since_maintenance : ℕ
  operating_cycles : ℕ
deriving DecidableEq, Repr

/--
Shallow embedding of CircuitBreaker.operate
(src/src/models/asset_models.py, lines 364-384). Returns the Python
(bool, message) pair together with the post-state of the breaker.
-/
def CircuitBreaker.operate (cb : CircuitBreakerState) (command : String) :
    (Bool × String) × CircuitBreakerState :=
  if command = "open" ∧ cb.position = "closed" then
    if cb.spring_charge_status then
      ((true, "Circuit breaker opened successfully"),
        { cb with
          position := "open"
          operating_cycles := cb.operating_cycles + 1
          total_operations := cb.total_operations + 1
          operations_since_maintenance := cb.operations_since_maintenance + 1 })
    else ((false, "Spring not charged"), cb)
  else if command = "close" ∧ cb.position = "open" then
    if cb.close_coil_healthy then
      ((true, "Circuit breaker closed successfully"),
        { cb with
          position := "closed"
          operating_cycles := cb.operating_cycles + 1
          total_operations := cb.total_operations + 1
          operations_since_maintenance := cb.operations_since_maintenance + 1 })
    else ((false, "Close coil faulty"), cb)
  else
    ((false, "Invalid operation: " ++ command ++ " from " ++ cb.position), cb)

/- ===================== ai_ml_models.py ===================== -/

/--
Truncation size used on a full online buffer: the Python code computes
keep_size as int(self.buffer_size * 0.2), which at the configured sizes
100 and 200 equals 20 and 40; over naturals this is buffer_size * 2 / 10
with floor division.
-/
def keep_size (buffer_size : ℕ) : ℕ := buffer_size * 2 / 10

/--
Core of SubstationAnomalyDetector.update_with_new_data and
SubstationPredictiveModel.update_with_new_data
(src/src/models/ai_ml_models.py, lines 118-139 and 308-332) acting on
the per-asset-type buffer list: append the observation; when the length
has reached buffer_size, a retrain fires (returned Bool) and the buffer
is truncated to its most recent keep_size entries, the Python slice
buffer[-keep_size:].
-/
def online_buffer_update {α : Type} (buffer_size : ℕ) (buf : List α) (x : α) :
    List α × Bool :=
  let buf2 := buf ++ [x]
  if buffer_size ≤ buf2.length then
    (buf2.drop (buf2.length - keep_size buffer_size), true)
  else
    (buf2, false)

/--
SubstationAnomalyDetector.update_with_new_data at the level of the
online_buffer dictionary (modelled as a total function from asset type
to list, missing keys reading as the empty list); buffer_size = 100.
-/
def anomaly_update_with_new_data {α : Type} (online_buffer : String → List α)
    (asset_type : String) (features_dict : α) : (String → List α) × Bool :=
  let r := online_buffer_update 100 (online_buffer asset_type) features_dict
  (fun t => if t = asset_type then r.1 else online_buffer t, r.2)

/--
SubstationPredictiveModel.update_with_new_data at the level of the
online_buffer dictionary; buffer_size = 200 (the features_dict the
Python code buffers has the health_score merged in, which does not
affect buffer length).
-/
def predictive_update_with_new_data {α : Type} (online_buffer : String → List α)
    (asset_type : String) (features_dict : α) : (String → List α) × Bool :=
  let r := online_buffer_update 200 (online_buffer asset_type) features_dict
  (fun t => if t = asset_type then r.1 else online_buffer t, r.2)

/--
Result record built by SubstationAnomalyDetector.detect_anomalies for a
flagged asset (the fields the claims are about).
-/
structure AnomalyRec where
  anomaly_score : ℚ
  severity : String
deriving DecidableEq, Repr

/--
Per-asset body of SubstationAnomalyDetector.detect_anomalies
(src/src/models/ai_ml_models.py, lines 96-111): given the decision
score of the trained model on the scaled features and the calibrated
threshold of the asset type, the asset is flagged exactly when
score < threshold, with severity high when score < threshold * 0.5 and
medium otherwise; an unflagged asset contributes nothing.
-/
def detect_one (score threshold : ℚ) : Option AnomalyRec :=
  if score < threshold then
    some { anomaly_score := score
           severity := if score < threshold * (1 / 2) then "high" else "medium" }
  else
    none

/--
Shallow embedding of SubstationPredictiveModel._calculate_maintenance_window
(src/src/models/ai_ml_models.py, lines 297-306).
-/
def calculate_maintenance_window (predicted_health : ℚ) : String :=
  if predicted_health < 50 then "immediate"
  else if predicted_health < 70 then "within_7_days"
  else if predicted_health < 85 then "within_30_days"
  else "within_90_days"

/--
Result record built by SubstationPredictiveModel.predict_health_degradation
for one asset (the fields the claims are about).
-/
structure PredictionRec where
  current_health : ℚ
  predicted_health : ℚ
  degradation_rate : ℚ
  urgency : String
  maintenance_window : String
deriving DecidableEq, Repr

/--
Per-asset body of SubstationPredictiveModel.predict_health_degradation
(src/src/models/ai_ml_models.py, lines 270-290): from the current
health and the regressor output predicted_health it computes the
degradation rate over 30 days, the urgency band and the maintenance
window.
-/
def prediction_entry (current_health predicted_health : ℚ) : PredictionRec :=
  { current_health := current_health
    predicted_health := predicted_health
    degradation_rate := (current_health - predicted_health) / 30
    urgency :=
      if predicted_health < 50 then "critical"
      else if predicted_health < 70 then "high"
      else if predicted_health < 85 then "medium"
      else "low"
    maintenance_window := calculate_maintenance_window predicted_health }

/--
Metrics dictionary read by SubstationOptimizer.optimize_power_flow via
current_state.get with default 0.
-/
structure PowerFlowState where
  total_power : ℚ
  efficiency : ℚ
  voltage_stability : ℚ
deriving DecidableEq, Repr

/--
Shallow embedding of SubstationOptimizer._calculate_optimization_score
(src/src/models/ai_ml_models.py, lines 435-439).
-/
def calculate_optimization_score (efficiency voltage_stability : ℚ) : ℚ :=
  (min 100 (efficiency / 95 * 100) + min 100 (voltage_stability / 98 * 100)) / 2

/--
Result record of SubstationOptimizer.optimize_power_flow (the fields
the claims are about; recommendations keeps only the action tags).
-/
structure OptimizationResult where
  current_efficiency : ℚ
  current_voltage_stability : ℚ
  recommendations : List String
  optimization_score : ℚ
deriving DecidableEq, Repr

/--
Shallow embedding of SubstationOptimizer.optimize_power_flow
(src/src/models/ai_ml_models.py, lines 378-429): three conditional
advisory actions and the optimization score.
-/
def optimize_power_flow (current_state : PowerFlowState) : OptimizationResult :=
  { current_efficiency := current_state.efficiency
    current_voltage_stability := current_state.voltage_stability
    recommendations :=
      (if current_state.efficiency < 95 then ["adjust_transformer_taps"] else []) ++
      (if current_state.voltage_stability < 98 then ["adjust_capacitor_banks"] else []) ++
      (if 0 < current_state.total_power then ["redistribute_load"] else [])
    optimization_score :=
      calculate_optimization_score current_state.efficiency current_state.voltage_stability }

/--
Shallow embedding of SubstationOptimizer.optimize_maintenance_schedule
(src/src/models/ai_ml_models.py): buckets predictions by urgency.
-/
structure MaintenanceSchedule where
  immediate : List PredictionRec
  within_7_days : List PredictionRec
  within_30_days : List PredictionRec
  total_assets : ℕ
deriving DecidableEq, Repr

/--
SubstationOptimizer.optimize_maintenance_schedule: groups the
prediction list into urgency buckets with counts.
-/
def optimize_maintenance_schedule (asset_predictions : List PredictionRec) :
    MaintenanceSchedule :=
  { immediate := asset_predictions.filter (fun a => a.urgency == "critical")
    within_7_days := asset_predictions.filter (fun a => a.urgency == "high")
    within_30_days := asset_predictions.filter (fun a => a.urgency == "medium")
    total_assets := asset_predictions.length }

/--
Summary block of SubstationAIManager.analyze_current_state.
-/
structure AnalysisSummary where
  anomaly_count : ℕ
  critical_assets : ℕ
  optimization_score : ℚ
deriving DecidableEq, Repr

/--
Analysis dictionary returned by SubstationAIManager.analyze_current_state
on the success path.
-/
structure AnalysisResult where
  anomalies : List AnomalyRec
  predictions : List PredictionRec
  optimization : OptimizationResult
  maintenance_schedule : MaintenanceSchedule
  summary : AnalysisSummary
deriving DecidableEq, Repr

/--
Shallow embedding of SubstationAIManager.analyze_current_state
(src/src/models/ai_ml_models.py, lines 735-769). The two model-backed
sub-calls (detect_anomalies and predict_health_degradation run the
black-box sklearn models) are passed as Except values: an error value
models an exception raised inside the try block, which the except
handler turns into the empty dictionary, modelled as none. The
optimizer calls are the embedded total functions above. When the
manager is not initialized the empty dictionary is returned up front.
-/
def analyze_current_state (is_initialized : Bool) (metrics : PowerFlowState)
    (detect : Except String (List AnomalyRec))
    (predict : Except String (List PredictionRec)) : Option AnalysisResult :=
  if is_initialized = false then none
  else
    match detect with
    | Except.error _ => none
    | Except.ok anomalies =>
      match predict with
      | Except.error _ => none
      | Except.ok predictions =>
        some
          { anomalies := anomalies
            predictions := predictions
            optimization := optimize_power_flow metrics
            maintenance_schedule := optimize_maintenance_schedule predictions
            summary :=
              { anomaly_count := anomalies.length
                critical_assets :=
                  (predictions.filter (fun p => p.urgency == "critical")).length
                optimization_score := (optimize_power_flow metrics).optimization_score } }

/--
Feature dictionary the manager hands to the anomaly detector buffer.
-/
structure AnomalyFeatures where
  voltage : ℚ
  current : ℚ
  power : ℚ
  temperature : ℚ
  health_score : ℚ
deriving DecidableEq, Repr

/--
Feature dictionary for the predictive model, with the health score the
update path merges in before buffering.
-/
structure PredictiveSample where
  voltage : ℚ
  current : ℚ
  power : ℚ
  temperature : ℚ
  age_days : ℚ
  health_score : ℚ
deriving DecidableEq, Repr

/--
The two per-type online buffer dictionaries owned by the AI manager.
-/
structure AIBuffers where
  anomaly_buffers : String → List AnomalyFeatures
  predictive_buffers : String → List PredictiveSample

/--
Shallow embedding of SubstationAIManager.update_models_online
(src/src/models/ai_ml_models.py, lines 537-573). asset_type is the
.get lookup on asset_data (none when missing, which makes the function
return at once). raiseA and raiseP model an exception raised inside
the respective update_with_new_data sub-call; the surrounding
try/except catches it and the function returns the state reached so
far, so the caller always gets a state back and never an exception.
-/
def update_models_online (asset_type : Option String)
    (anomaly_features : AnomalyFeatures) (predictive_sample : PredictiveSample)
    (st : AIBuffers) (raiseA raiseP : Bool) : AIBuffers :=
  match asset_type with
  | none => st
  | some ty =>
    if raiseA = true then st
    else
      let st1 : AIBuffers :=
        { st with anomaly_buffers :=
            (anomaly_update_with_new_data st.anomaly_buffers ty anomaly_features).1 }
      if raiseP = true then st1
      else
        { st1 with predictive_buffers :=
            (predictive_update_with_new_data st1.predictive_buffers ty predictive_sample).1 }

/- ============== opendss_anomaly_simulator.py ============== -/

/--
Commands the injection primitives issue to the OpenDSS engine, reduced
to their effect on the disturbance state of the circuit model: newElem
creates a temporary fault/load/source element (enabled), disableElem
disables it, setFreq and setMode change the global solution settings,
and solve, capture and readEng are the engine calls that do not change
the circuit model (solve, _capture_system_state and the various
property reads) but can raise.
-/
inductive DssCmd where
  | newElem (name : String)
  | disableElem (name : String)
  | setFreq (f : ℚ)
  | setMode (m : String)
  | solve
  | capture
  | readEng
deriving DecidableEq, Repr

/--
The part of the OpenDSS circuit model state the injection primitives
disturb: which temporary elements are enabled, the solution frequency
and the solution mode.
-/
structure EngState where
  active : String → Bool
  freq : ℚ
  mode : String

/--
Effect of one engine command on the circuit model state.
-/
def applyCmd (c : DssCmd) (s : EngState) : EngState :=
  match c with
  | DssCmd.newElem name =>
    { s with active := fun m => if m = name then true else s.active m }
  | DssCmd.disableElem name =>
    { s with active := fun m => if m = name then false else s.active m }
  | DssCmd.setFreq f => { s with freq := f }
  | DssCmd.setMode m => { s with mode := m }
  | DssCmd.solve => s
  | DssCmd.capture => s
  | DssCmd.readEng => s

/--
Sequential execution of an injection primitive command list, mirroring
the straight-line Python bodies, which contain no try/finally: raises k
says whether the engine call at position k raises, in which case
execution stops there, the exception propagates (second component
false) and no later command runs.
-/
def runCmds (raises : ℕ → Bool) : List DssCmd → ℕ → EngState → EngState × Bool
  | [], _, s => (s, true)
  | c :: cs, k, s =>
    if raises k = true then (s, false)
    else runCmds raises cs (k + 1) (applyCmd c s)

/--
Command sequence of OpenDSSAnomalySimulator.inject_voltage_sag
(src/src/simulation/opendss_anomaly_simulator.py, lines 245-279): one
fault element per requested phase, solve, state capture, then the
clearing block (disable each fault and re-solve). The bus argument
only appears inside the command text, not in the element names.
-/
def voltage_sag_cmds (_bus : String) (phases : List String) : List DssCmd :=
  (if phases.contains "A" then [DssCmd.newElem "fault.sag_A"] else []) ++
  (if phases.contains "B" then [DssCmd.newElem "fault.sag_B"] else []) ++
  (if phases.contains "C" then [DssCmd.newElem "fault.sag_C"] else []) ++
  [DssCmd.solve, DssCmd.capture] ++
  (if phases.contains "A" then [DssCmd.disableElem "fault.sag_A"] else []) ++
  (if phases.contains "B" then [DssCmd.disableElem "fault.sag_B"] else []) ++
  (if phases.contains "C" then [DssCmd.disableElem "fault.sag_C"] else []) ++
  [DssCmd.solve]

/--
Command sequence of OpenDSSAnomalySimulator.inject_ground_fault
(lines 383-415): create fault.gnd_fault, solve, capture, read the
fault current, then disable the fault and re-solve.
-/
def ground_fault_cmds (_bus : String) (_phase : String) : List DssCmd :=
  [DssCmd.newElem "fault.gnd_fault", DssCmd.solve, DssCmd.capture, DssCmd.readEng,
   DssCmd.disableElem "fault.gnd_fault", DssCmd.solve]

/--
Command sequence of OpenDSSAnomalySimulator.inject_harmonic_distortion:
one isource per harmonic order, harmonics mode, solve, harmonic
capture, then disable each source, snapshot mode, re-solve.
-/
def harmonic_distortion_cmds (_bus : String) (harmonics : List ℕ) : List DssCmd :=
  harmonics.map (fun h => DssCmd.newElem ("isource.harm_" ++ toString h)) ++
  [DssCmd.setMode "harmonics", DssCmd.solve, DssCmd.capture] ++
  harmonics.map (fun h => DssCmd.disableElem ("isource.harm_" ++ toString h)) ++
  [DssCmd.setMode "snapshot", DssCmd.solve]

/--
Command sequence of OpenDSSAnomalySimulator.inject_transformer_overload:
two property reads (kva rating and secondary bus), the temporary
overload load, solve, capture, one more read (currents), then disable
the load and re-solve.
-/
def transformer_overload_cmds (transformer : String) : List DssCmd :=
  [DssCmd.readEng, DssCmd.readEng,
   DssCmd.newElem ("load.overload_" ++ transformer),
   DssCmd.solve, DssCmd.capture, DssCmd.readEng,
   DssCmd.disableElem ("load.overload_" ++ transformer), DssCmd.solve]

/--
Command sequence of OpenDSSAnomalySimulator.inject_frequency_deviation:
set the deviated frequency, solve, capture, then restore the literal
50 Hz and re-solve.
-/
def frequency_deviation_cmds (deviation_hz : ℚ) : List DssCmd :=
  [DssCmd.setFreq (50 + deviation_hz), DssCmd.solve, DssCmd.capture,
   DssCmd.setFreq 50, DssCmd.solve]

/--
Command sequence of OpenDSSAnomalySimulator.inject_ct_saturation:
create the high-current fault, solve, read the fault current, then
disable the fault and re-solve.
-/
def ct_saturation_cmds (_ct_location : String) : List DssCmd :=
  [DssCmd.newElem "fault.ct_sat_fault", DssCmd.solve, DssCmd.readEng,
   DssCmd.disableElem "fault.ct_sat_fault", DssCmd.solve]

/--
Oracle for an engine that never raises.
-/
def noRaise : ℕ → Bool := fun _ => false

/--
AnomalyType enum of opendss_anomaly_simulator.py.
-/
inductive AnomalyType where
  | VOLTAGE_SAG
  | VOLTAGE_SWELL
  | VOLTAGE_INTERRUPTION
  | VOLTAGE_IMBALANCE
  | VOLTAGE_FLICKER
  | OVERCURRENT
  | CURRENT_IMBALANCE
  | GROUND_FAULT
  | HARMONIC_DISTORTION
  | THD_VIOLATION
  | RESONANCE
  | TRANSFORMER_OVERLOAD
  | TRANSFORMER_OVERHEATING
  | TAP_CHANGER_FAILURE
  | WINDING_FAULT
  | BREAKER_FAILURE
  | SWITCHING_TRANSIENT
  | ARC_FAULT
  | FREQUENCY_DEVIATION
  | POWER_OSCILLATION
  | ISLANDING
  | CASCADING_FAILURE
  | CAPACITOR_FAILURE
  | CAPACITOR_SWITCHING
  | RELAY_MISOPERATION
  | CT_SATURATION
  | CVT_FERRORESONANCE
deriving DecidableEq, Repr

/--
anomaly_type tag carried by a label-1 row of the generated dataset:
the four implemented branches of generate_anomaly_dataset record their
own tag, and every other drawn type falls into the default branch that
calls inject_voltage_sag.
-/
def anomaly_tag : AnomalyType → String
  | AnomalyType.VOLTAGE_SAG => "voltage_sag"
  | AnomalyType.HARMONIC_DISTORTION => "harmonic_distortion"
  | AnomalyType.TRANSFORMER_OVERLOAD => "transformer_overload"
  | AnomalyType.GROUND_FAULT => "ground_fault"
  | _ => "voltage_sag"

/--
One row of the dataset produced by generate_anomaly_dataset, reduced
to the label and anomaly_type columns the claims are about.
-/
structure DatasetRow where
  label : ℕ
  anomaly_type : String
deriving DecidableEq, Repr

/--
Iteration body of OpenDSSAnomalySimulator.generate_anomaly_dataset
(src/src/simulation/opendss_anomaly_simulator.py, lines 563-624).
rand i models random.random() at iteration i, choice i models
random.choice over the anomaly types, and inj_fails i says whether the
chosen injection raises: the except branch then hits continue, so the
iteration appends no row (none). Below the 0.7 draw the undisturbed
sample is captured with label 0 and tag normal; otherwise the injected
sample gets label 1 and the tag of the primitive that ran.
-/
def generate_row (rand : ℕ → ℚ) (choice : ℕ → AnomalyType) (inj_fails : ℕ → Bool)
    (i : ℕ) : Option DatasetRow :=
  if rand i < 7 / 10 then some { label := 0, anomaly_type := "normal" }
  else if inj_fails i = true then none
  else some { label := 1, anomaly_type := anomaly_tag (choice i) }

/--
Shallow embedding of OpenDSSAnomalySimulator.generate_anomaly_dataset:
iterations 0 .. num_samples - 1, each contributing its generate_row
result when the iteration was not skipped by the except/continue path.
-/
def generate_anomaly_dataset (rand : ℕ → ℚ) (choice : ℕ → AnomalyType)
    (inj_fails : ℕ → Bool) (num_samples : ℕ) : List DatasetRow :=
  (List.range num_samples).filterMap (generate_row rand choice inj_fails)

/- ===================== theorems ===================== -/

/--
C1: for every asset (any degradation rate and last-maintenance date)
and any operating-hour and fault counts, the health score computed by
AssetHealth.calculate_health_score, the value the update path embeds
in the asset dictionary, lies in the closed interval [0, 100].
-/
theorem calculate_health_score_in_range (degradation_rate : ℚ)
    (last_maintenance_days : Option ℤ) (operational_hours fault_count : ℤ) :
    0 ≤ calculate_health_score degradation_rate last_maintenance_days
        operational_hours fault_count ∧
    calculate_health_score degradation_rate last_maintenance_days
        operational_hours fault_count ≤ 100 := by
  unfold calculate_health_score
  constructor
  · exact le_max_left 0 _
  · exact max_le (by norm_num) (min_le_left 100 _)

/--
C4: predict_health_degradation assigns urgency critical exactly when
predicted_health < 50, high exactly on [50, 70) (so exactly 50 maps to
high), medium exactly on [70, 85) and low exactly on [85, inf), and
the maintenance window bands coincide with the urgency bands:
immediate iff critical, within_7_days iff high, within_30_days iff
medium, within_90_days iff low.
-/
theorem prediction_urgency_and_window_bands (current_health predicted_health : ℚ) :
    ((prediction_entry current_health predicted_health).urgency = "critical" ↔
      predicted_health < 50) ∧
    ((prediction_entry current_health predicted_health).urgency = "high" ↔
      50 ≤ predicted_health ∧ predicted_health < 70) ∧
    ((prediction_entry current_health predicted_health).urgency = "medium" ↔
      70 ≤ predicted_health ∧ predicted_health < 85) ∧
    ((prediction_entry current_health predicted_health).urgency = "low" ↔
      85 ≤ predicted_health) ∧
    ((prediction_entry current_health predicted_health).maintenance_window = "immediate" ↔
      (prediction_entry current_health predicted_health).urgency = "critical") ∧
    ((prediction_entry current_health predicted_health).maintenance_window = "within_7_days" ↔
      (prediction_entry current_health predicted_health).urgency = "high") ∧
    ((prediction_entry current_health predicted_health).maintenance_window = "within_30_days" ↔
      (prediction_entry current_health predicted_health).urgency = "medium") ∧
    ((prediction_entry current_health predicted_health).maintenance_window = "within_90_days" ↔
      (prediction_entry current_health predicted_health).urgency = "low") := by
  unfold prediction_entry calculate_maintenance_window
  refine ⟨?_, ?_, ?_, ?_, ?_, ?_, ?_, ?_⟩ <;>
    by_cases h1 : predicted_health < 50 <;>
    by_cases h2 : predicted_health < 70 <;>
    by_cases h3 : predicted_health < 85 <;>
    simp [h1, h2, h3] <;>
    linarith

/--
C7: for an asset of a trained type, detect_anomalies flags it exactly
when the decision score is strictly below the calibrated threshold of
the type, and a flagged anomaly has severity high exactly when the
score is below half the threshold, medium otherwise.
-/
theorem detect_anomalies_flag_and_severity (score threshold : ℚ) :
    ((detect_one score threshold).isSome ↔ score < threshold) ∧
    (∀ a : AnomalyRec, detect_one score threshold = some a →
      (a.severity = "high" ↔ score < threshold * (1 / 2)) ∧
      (a.severity = "medium" ↔ ¬ score < threshold * (1 / 2))) := by
  unfold detect_one
  by_cases hf : score < threshold
  · refine ⟨by simp [hf], ?_⟩
    intro a ha
    by_cases hs : score < threshold * (1 / 2)
    · simp [hf, hs] at ha
      simp [← ha, hs]
    · simp [hf, hs] at ha
      simp [← ha, hs]
  · exact ⟨by simp [hf], fun a ha => by simp [hf] at ha⟩

/--
C7 witness: a concrete flagged asset at score 1 against threshold 3 is
high severity since 1 < 3 * 0.5.
-/
theorem detect_anomalies_flag_and_severity_witness :
    detect_one 1 3 = some { anomaly_score := 1, severity := "high" } ∧
    ({ anomaly_score := 1, severity := "high" : AnomalyRec }).severity = "high" := by
  have hd : detect_one 1 3 = some { anomaly_score := 1, severity := "high" } := by
    unfold detect_one
    rw [if_pos (by norm_num : (1 : ℚ) < 3),
        if_pos (by norm_num : (1 : ℚ) < 3 * (1 / 2))]
  exact ⟨hd, (((detect_anomalies_flag_and_severity 1 3).2 _ hd).1).mpr (by norm_num)⟩

/--
C9: when the calibrated threshold of a type is not positive, every
flagged anomaly has score < threshold ≤ threshold * 0.5, so its
severity is always high; a medium severity can occur only when the
threshold is strictly positive.
-/
theorem medium_severity_needs_positive_threshold (score threshold : ℚ)
    (a : AnomalyRec) :
    (threshold ≤ 0 → detect_one score threshold = some a → a.severity = "high") ∧
    (detect_one score threshold = some a → a.severity = "medium" → 0 < threshold) := by
  constructor
  · intro ht ha
    unfold detect_one at ha
    by_cases hf : score < threshold
    · have hh : score < threshold * (1 / 2) := by nlinarith
      rw [if_pos hf, if_pos hh] at ha
      injection ha with ha2
      rw [← ha2]
    · rw [if_neg hf] at ha
      simp at ha
  · intro ha hm
    unfold detect_one at ha
    by_cases hf : score < threshold
    · by_cases hs : score < threshold * (1 / 2)
      · rw [if_pos hf, if_pos hs] at ha
        injection ha with ha2
        rw [← ha2] at hm
        exact absurd hm (by simp)
      · have h2 : threshold * (1 / 2) ≤ score := le_of_not_lt hs
        linarith
    · rw [if_neg hf] at ha
      simp at ha

/--
C8: optimize_power_flow returns an optimization score equal to the
mean of the two normalized capped ratios, and that score never exceeds
100 and is monotone non-decreasing in the efficiency input and in the
voltage stability input.
-/
theorem optimization_score_mean_capped_monotone (current_state : PowerFlowState)
    (e1 e2 v1 v2 : ℚ) :
    ((optimize_power_flow current_state).optimization_score
      = (min 100 (current_state.efficiency / 95 * 100)
          + min 100 (current_state.voltage_stability / 98 * 100)) / 2) ∧
    ((optimize_power_flow current_state).optimization_score ≤ 100) ∧
    (e1 ≤ e2 → ∀ v : ℚ,
      calculate_optimization_score e1 v ≤ calculate_optimization_score e2 v) ∧
    (v1 ≤ v2 → ∀ e : ℚ,
      calculate_optimization_score e v1 ≤ calculate_optimization_score e v2) := by
  refine ⟨rfl, ?_, ?_, ?_⟩
  · show calculate_optimization_score _ _ ≤ 100
    unfold calculate_optimization_score
    have hA := min_le_left (100 : ℚ)
      (current_state.efficiency / 95 * 100)
    have hB := min_le_left (100 : ℚ)
      (current_state.voltage_stability / 98 * 100)
    linarith
  · intro he v
    unfold calculate_optimization_score
    have h : e1 / 95 * 100 ≤ e2 / 95 * 100 :=
      mul_le_mul_of_nonneg_right ((div_le_div_iff_of_pos_right (by norm_num)).mpr he) (by norm_num)
    have h2 : min 100 (e1 / 95 * 100) ≤ min 100 (e2 / 95 * 100) :=
      min_le_min (le_refl 100) h
    linarith
  · intro hv e
    unfold calculate_optimization_score
    have h : v1 / 98 * 100 ≤ v2 / 98 * 100 :=
      mul_le_mul_of_nonneg_right ((div_le_div_iff_of_pos_right (by norm_num)).mpr hv) (by norm_num)
    have h2 : min 100 (v1 / 98 * 100) ≤ min 100 (v2 / 98 * 100) :=
      min_le_min (le_refl 100) h
    linarith

/--
C8 witness: at efficiency 90 against 95 with stability 98, the
monotonicity hypotheses hold and the score is monotone; the capped
score at the concrete metrics is at most 100.
-/
theorem optimization_score_mean_capped_monotone_witness :
    ((90 : ℚ) ≤ 95 ∧
      calculate_optimization_score 90 98 ≤ calculate_optimization_score 95 98) ∧
    ((97 : ℚ) ≤ 98 ∧
      calculate_optimization_score 90 97 ≤ calculate_optimization_score 90 98) ∧
    (optimize_power_flow { total_power := 1, efficiency := 90, voltage_stability := 97 }).optimization_score ≤ 100 :=
  ⟨⟨by norm_num,
    (optimization_score_mean_capped_monotone
        { total_power := 1, efficiency := 90, voltage_stability := 97 }
        90 95 0 0).2.2.1 (by norm_num) 98⟩,
   ⟨by norm_num,
    (optimization_score_mean_capped_monotone
        { total_power := 1, efficiency := 90, voltage_stability := 97 }
        0 0 97 98).2.2.2 (by norm_num) 90⟩,
   (optimization_score_mean_capped_monotone
      { total_power := 1, efficiency := 90, voltage_stability := 97 } 0 0 0 0).2.1⟩

/--
C9 witness: threshold -1 is not positive and the flagged score -2
gets severity high; and a medium anomaly at score 1.5 against
threshold 2 indeed has a positive threshold.
-/
theorem medium_severity_needs_positive_threshold_witness :
    ((-1 : ℚ) ≤ 0 ∧
      ({ anomaly_score := -2, severity := "high" : AnomalyRec }).severity = "high") ∧
    (detect_one (3 / 2) 2 = some { anomaly_score := 3 / 2, severity := "medium" } ∧
      (0 : ℚ) < 2) := by
  have hd1 : detect_one (-2) (-1) = some { anomaly_score := -2, severity := "high" } := by
    unfold detect_one
    rw [if_pos (by norm_num : (-2 : ℚ) < -1),
        if_pos (by norm_num : (-2 : ℚ) < -1 * (1 / 2))]
  have hd2 : detect_one (3 / 2) 2 = some { anomaly_score := 3 / 2, severity := "medium" } := by
    unfold detect_one
    rw [if_pos (by norm_num : (3 / 2 : ℚ) < 2),
        if_neg (by norm_num : ¬ (3 / 2 : ℚ) < 2 * (1 / 2))]
  exact ⟨⟨by norm_num,
      (medium_severity_needs_positive_threshold (-2) (-1)
          { anomaly_score := -2, severity := "high" }).1 (by norm_num) hd1⟩,
    ⟨hd2,
      (medium_severity_needs_positive_threshold (3 / 2) 2
          { anomaly_score := 3 / 2, severity := "medium" }).2 hd2 rfl⟩⟩

/--
C10: CircuitBreaker.operate succeeds exactly when the command toggles
a healthy breaker from the opposite position: open requires position
closed with the spring charged, close requires position open with a
healthy close coil. On success the position toggles and the three
counters (total_operations, operations_since_maintenance and
mechanical.operating_cycles) each grow by exactly one while the health
flags stay put; on any failure the returned state is unchanged.
-/
theorem circuit_breaker_operate_success_and_frame (cb : CircuitBreakerState)
    (command : String) :
    ((CircuitBreaker.operate cb command).1.1 = true ↔
      (command = "open" ∧ cb.position = "closed" ∧ cb.spring_charge_status = true) ∨
      (command = "close" ∧ cb.position = "open" ∧ cb.close_coil_healthy = true)) ∧
    ((CircuitBreaker.operate cb command).1.1 = true →
      (CircuitBreaker.operate cb command).2.total_operations = cb.total_operations + 1 ∧
      (CircuitBreaker.operate cb command).2.operations_since_maintenance
        = cb.operations_since_maintenance + 1 ∧
      (CircuitBreaker.operate cb command).2.operating_cycles = cb.operating_cycles + 1 ∧
      (CircuitBreaker.operate cb command).2.spring_charge_status = cb.spring_charge_status ∧
      (CircuitBreaker.operate cb command).2.close_coil_healthy = cb.close_coil_healthy ∧
      (command = "open" → (CircuitBreaker.operate cb command).2.position = "open") ∧
      (command = "close" → (CircuitBreaker.operate cb command).2.position = "closed")) ∧
    ((CircuitBreaker.operate cb command).1.1 = false →
      (CircuitBreaker.operate cb command).2 = cb) := by
  unfold CircuitBreaker.operate
  by_cases h1 : command = "open" ∧ cb.position = "closed"
  · by_cases hs : cb.spring_charge_status
    · simp [h1, hs]
    · simp [h1, hs]
  · by_cases h2 : command = "close" ∧ cb.position = "open"
    · by_cases hc : cb.close_coil_healthy
      · simp [h1, h2, hc]
      · simp [h1, h2, hc]
    · simp [h1, h2]
      constructor <;> intro ha hb
      · exact absurd ⟨ha, hb⟩ h1
      · exact absurd ⟨ha, hb⟩ h2

/--
C10 witness: a closed healthy breaker opens on the open command with
all three counters advancing by one, and a closed breaker with an
uncharged spring refuses the open command with its state unchanged.
-/
theorem circuit_breaker_operate_success_and_frame_witness :
    ((CircuitBreaker.operate ⟨"closed", true, true, 1250, 250, 0⟩ "open").1.1 = true ∧
      (CircuitBreaker.operate ⟨"closed", true, true, 1250, 250, 0⟩ "open").2.total_operations
        = 1250 + 1 ∧
      (CircuitBreaker.operate ⟨"closed", true, true, 1250, 250, 0⟩ "open").2.position
        = "open") ∧
    ((CircuitBreaker.operate ⟨"closed", false, true, 0, 0, 0⟩ "open").1.1 = false ∧
      (CircuitBreaker.operate ⟨"closed", false, true, 0, 0, 0⟩ "open").2
        = ⟨"closed", false, true, 0, 0, 0⟩) := by
  refine ⟨⟨by decide, ?_, ?_⟩, ⟨by decide, ?_⟩⟩
  · exact ((circuit_breaker_operate_success_and_frame
      ⟨"closed", true, true, 1250, 250, 0⟩ "open").2.1 (by decide)).1
  · exact ((circuit_breaker_operate_success_and_frame
      ⟨"closed", true, true, 1250, 250, 0⟩ "open").2.1 (by decide)).2.2.2.2.2.1 rfl
  · exact (circuit_breaker_operate_success_and_frame
      ⟨"closed", false, true, 0, 0, 0⟩ "open").2.2 (by decide)

/--
Helper: behaviour of the shared buffer-append-and-retrain core for an
arbitrary buffer size.
-/
theorem online_buffer_update_spec {α : Type} (bs : ℕ) (buf : List α) (x : α) :
    ((online_buffer_update bs buf x).2 = true ↔ bs ≤ buf.length + 1) ∧
    (¬ bs ≤ buf.length + 1 → (online_buffer_update bs buf x).1 = buf ++ [x]) ∧
    (bs ≤ buf.length + 1 →
      (online_buffer_update bs buf x).1 = (buf ++ [x]).drop (buf.length + 1 - keep_size bs)) := by
  unfold online_buffer_update
  by_cases h : bs ≤ (buf ++ [x]).length
  · have h2 : bs ≤ buf.length + 1 := by simpa using h
    simp [h, h2]
  · have h2 : ¬ bs ≤ buf.length + 1 := by simpa using h
    simp [h, h2]

/--
C3: every call to update_with_new_data appends exactly one observation
to the online buffer of the given asset type, leaving every other
buffer untouched; the retrain fires exactly when the buffer length has
reached buffer_size (100 for the anomaly detector, 200 for the
predictive model), at which point the buffer is truncated to its most
recent int(0.2 * buffer_size) entries (20, resp. 40); consequently
after every call from a state respecting the capacity the buffer
length never exceeds buffer_size.
-/
theorem online_buffers_capacity_and_retrain {α β : Type}
    (bufsA : String → List α) (bufsP : String → List β)
    (asset_type : String) (x : α) (y : β) :
    ((anomaly_update_with_new_data bufsA asset_type x).2 = true ↔
      100 ≤ (bufsA asset_type).length + 1) ∧
    ((bufsA asset_type).length + 1 < 100 →
      (anomaly_update_with_new_data bufsA asset_type x).1 asset_type
        = bufsA asset_type ++ [x]) ∧
    ((bufsA asset_type).length + 1 = 100 →
      (anomaly_update_with_new_data bufsA asset_type x).1 asset_type
          = (bufsA asset_type ++ [x]).drop 80 ∧
      ((anomaly_update_with_new_data bufsA asset_type x).1 asset_type).length = 20) ∧
    (∀ t, t ≠ asset_type →
      (anomaly_update_with_new_data bufsA asset_type x).1 t = bufsA t) ∧
    ((bufsA asset_type).length < 100 →
      ((anomaly_update_with_new_data bufsA asset_type x).1 asset_type).length ≤ 100) ∧
    ((predictive_update_with_new_data bufsP asset_type y).2 = true ↔
      200 ≤ (bufsP asset_type).length + 1) ∧
    ((bufsP asset_type).length + 1 < 200 →
      (predictive_update_with_new_data bufsP asset_type y).1 asset_type
        = bufsP asset_type ++ [y]) ∧
    ((bufsP asset_type).length + 1 = 200 →
      (predictive_update_with_new_data bufsP asset_type y).1 asset_type
          = (bufsP asset_type ++ [y]).drop 160 ∧
      ((predictive_update_with_new_data bufsP asset_type y).1 asset_type).length = 40) ∧
    (∀ t, t ≠ asset_type →
      (predictive_update_with_new_data bufsP asset_type y).1 t = bufsP t) ∧
    ((bufsP asset_type).length < 200 →
      ((predictive_update_with_new_data bufsP asset_type y).1 asset_type).length ≤ 200) := by
  have hA := online_buffer_update_spec 100 (bufsA asset_type) x
  have hP := online_buffer_update_spec 200 (bufsP asset_type) y
  have hkA : keep_size 100 = 20 := rfl
  have hkP : keep_size 200 = 40 := rfl
  rw [hkA] at hA
  rw [hkP] at hP
  refine ⟨?_, ?_, ?_, ?_, ?_, ?_, ?_, ?_, ?_, ?_⟩
  · unfold anomaly_update_with_new_data
    exact hA.1
  · intro h
    unfold anomaly_update_with_new_data
    simp only [if_pos rfl]
    exact hA.2.1 (by omega)
  · intro h
    unfold anomaly_update_with_new_data
    simp only [if_pos rfl]
    have hd := hA.2.2 (by omega)
    rw [h] at hd
    constructor
    · exact hd
    · rw [hd]
      simp
      omega
  · intro t ht
    unfold anomaly_update_with_new_data
    simp [ht]
  · intro h
    unfold anomaly_update_with_new_data
    simp only [if_pos rfl]
    by_cases hfull : 100 ≤ (bufsA asset_type).length + 1
    · rw [hA.2.2 hfull]
      simp
      omega
    · rw [hA.2.1 hfull]
      simp
      omega
  · unfold predictive_update_with_new_data
    exact hP.1
  · intro h
    unfold predictive_update_with_new_data
    simp only [if_pos rfl]
    exact hP.2.1 (by omega)
  · intro h
    unfold predictive_update_with_new_data
    simp only [if_pos rfl]
    have hd := hP.2.2 (by omega)
    rw [h] at hd
    constructor
    · exact hd
    · rw [hd]
      simp
      omega
  · intro t ht
    unfold predictive_update_with_new_data
    simp [ht]
  · intro h
    unfold predictive_update_with_new_data
    simp only [if_pos rfl]
    by_cases hfull : 200 ≤ (bufsP asset_type).length + 1
    · rw [hP.2.2 hfull]
      simp
      omega
    · rw [hP.2.1 hfull]
      simp
      omega

set_option maxRecDepth 4096 in
/--
C3 witness: a 99-element anomaly buffer and a 199-element predictive
buffer each reach capacity on the next observation, fire a retrain and
come back truncated to 20 and 40 entries.
-/
theorem online_buffers_capacity_and_retrain_witness :
    (((fun _ : String => List.replicate 99 (0 : ℕ)) "PowerTransformer").length + 1 = 100 ∧
      (anomaly_update_with_new_data (fun _ : String => List.replicate 99 (0 : ℕ))
          "PowerTransformer" 0).2 = true ∧
      ((anomaly_update_with_new_data (fun _ : String => List.replicate 99 (0 : ℕ))
          "PowerTransformer" 0).1 "PowerTransformer").length = 20) ∧
    (((fun _ : String => List.replicate 199 (0 : ℕ)) "PowerTransformer").length + 1 = 200 ∧
      (predictive_update_with_new_data (fun _ : String => List.replicate 199 (0 : ℕ))
          "PowerTransformer" 0).2 = true ∧
      ((predictive_update_with_new_data (fun _ : String => List.replicate 199 (0 : ℕ))
          "PowerTransformer" 0).1 "PowerTransformer").length = 40) := by
  have hT := online_buffers_capacity_and_retrain
    (fun _ : String => List.replicate 99 (0 : ℕ))
    (fun _ : String => List.replicate 199 (0 : ℕ)) "PowerTransformer" 0 0
  refine ⟨⟨by simp, ?_, ?_⟩, ⟨by simp, ?_, ?_⟩⟩
  · exact hT.1.mpr (by simp)
  · exact (hT.2.2.1 (by simp)).2
  · exact hT.2.2.2.2.2.1.mpr (by simp)
  · exact (hT.2.2.2.2.2.2.2.1 (by simp)).2

/--
C5: the read path analyze_current_state and the write path
update_models_online never propagate an exception: every case of the
inputs, including every way an internal sub-call can raise (modelled
by the Except arguments and the raise flags), returns an ordinary
value — the empty dictionary (none) or the state reached so far —
so all internal failures are recovered locally.
-/
theorem analyze_and_update_online_never_propagate
    (metrics : PowerFlowState)
    (d : Except String (List AnomalyRec)) (p : Except String (List PredictionRec))
    (A : List AnomalyRec) (P : List PredictionRec) (e1 e2 : String)
    (ty : String) (aF : AnomalyFeatures) (pS : PredictiveSample) (st : AIBuffers)
    (rA rP : Bool) :
    (analyze_current_state false metrics d p = none) ∧
    (analyze_current_state true metrics (Except.error e1) p = none) ∧
    (analyze_current_state true metrics (Except.ok A) (Except.error e2) = none) ∧
    (analyze_current_state true metrics (Except.ok A) (Except.ok P)
      = some
          { anomalies := A
            predictions := P
            optimization := optimize_power_flow metrics
            maintenance_schedule := optimize_maintenance_schedule P
            summary :=
              { anomaly_count := A.length
                critical_assets := (P.filter (fun q => q.urgency == "critical")).length
                optimization_score := (optimize_power_flow metrics).optimization_score } }) ∧
    (update_models_online none aF pS st rA rP = st) ∧
    (update_models_online (some ty) aF pS st true rP = st) ∧
    (update_models_online (some ty) aF pS st false true
      = { anomaly_buffers := (anomaly_update_with_new_data st.anomaly_buffers ty aF).1
          predictive_buffers := st.predictive_buffers }) ∧
    (update_models_online (some ty) aF pS st false false
      = { anomaly_buffers := (anomaly_update_with_new_data st.anomaly_buffers ty aF).1
          predictive_buffers :=
            (predictive_update_with_new_data st.predictive_buffers ty pS).1 }) :=
  ⟨rfl, rfl, rfl, rfl, rfl, rfl, rfl, rfl⟩

/--
C6 counterexample: generate_anomaly_dataset(1) returns 0 rows, not 1,
when the single iteration draws the anomaly branch (random value 0.8)
and the chosen injection raises — the except handler hits continue and
the row is dropped, refuting the claim that the dataset always has
exactly n rows.
-/
theorem generate_dataset_drops_failed_injection :
    (generate_anomaly_dataset (fun _ => 4 / 5) (fun _ => AnomalyType.VOLTAGE_SAG)
        (fun _ => true) 1).length = 0 := by
  have h : ¬ ((4 : ℚ) / 5 < 7 / 10) := by norm_num
  unfold generate_anomaly_dataset
  rw [List.range_succ, List.range_zero]
  simp [generate_row, h]

/--
C6 amended: generate_anomaly_dataset(n) returns at most n rows, one
per iteration except the iterations whose injected disturbance raises
(those are skipped by the except/continue path); when no iteration
fails it returns exactly n rows; and every returned row carries label
0 (undisturbed) or label 1 (injected disturbance).
-/
theorem generate_dataset_rowcount_and_labels (rand : ℕ → ℚ)
    (choice : ℕ → AnomalyType) (inj_fails : ℕ → Bool) (num_samples : ℕ) :
    ((generate_anomaly_dataset rand choice inj_fails num_samples).length ≤ num_samples) ∧
    (∀ r ∈ generate_anomaly_dataset rand choice inj_fails num_samples,
      r.label = 0 ∨ r.label = 1) ∧
    ((∀ i, i < num_samples → rand i < 7 / 10 ∨ inj_fails i = false) →
      (generate_anomaly_dataset rand choice inj_fails num_samples).length = num_samples) := by
  refine ⟨?_, ?_, ?_⟩
  · unfold generate_anomaly_dataset
    calc ((List.range num_samples).filterMap (generate_row rand choice inj_fails)).length
        ≤ (List.range num_samples).length := List.length_filterMap_le _ _
      _ = num_samples := List.length_range num_samples
  · intro r hr
    unfold generate_anomaly_dataset at hr
    rw [List.mem_filterMap] at hr
    obtain ⟨i, _, hrow⟩ := hr
    unfold generate_row at hrow
    by_cases h1 : rand i < 7 / 10
    · rw [if_pos h1] at hrow
      injection hrow with h2
      left
      rw [← h2]
    · rw [if_neg h1] at hrow
      by_cases h2 : inj_fails i = true
      · rw [if_pos h2] at hrow
        exact absurd hrow (by simp)
      · rw [if_neg h2] at hrow
        injection hrow with h3
        right
        rw [← h3]
  · induction num_samples with
    | zero => intro _; rfl
    | succ n ih =>
      intro h
      have h1 : (generate_anomaly_dataset rand choice inj_fails n).length = n :=
        ih (fun i hi => h i (Nat.lt_succ_of_lt hi))
      have h2 : generate_row rand choice inj_fails n
          = some { label := if rand n < 7 / 10 then 0 else 1,
                   anomaly_type := if rand n < 7 / 10 then "normal"
                     else anomaly_tag (choice n) } := by
        unfold generate_row
        by_cases hr : rand n < 7 / 10
        · rw [if_pos hr, if_pos hr, if_pos hr]
        · rcases h n (Nat.lt_succ_self n) with hc | hf
          · exact absurd hc hr
          · rw [if_neg hr, if_neg hr, if_neg hr, hf]
            simp
      unfold generate_anomaly_dataset at h1 ⊢
      rw [List.range_succ, List.filterMap_append, List.length_append, h1]
      simp [h2]

/--
C6 witness: with every draw below 0.7 and no injection failure,
generate_anomaly_dataset(2) has exactly 2 rows.
-/
theorem generate_dataset_rowcount_and_labels_witness :
    (∀ i, i < 2 → (fun _ : ℕ => (0 : ℚ)) i < 7 / 10 ∨ (fun _ : ℕ => false) i = false) ∧
    (generate_anomaly_dataset (fun _ => (0 : ℚ)) (fun _ => AnomalyType.VOLTAGE_SAG)
        (fun _ => false) 2).length = 2 := by
  have hyp : ∀ i, i < 2 →
      (fun _ : ℕ => (0 : ℚ)) i < 7 / 10 ∨ (fun _ : ℕ => false) i = false := by
    intro i _
    right
    rfl
  exact ⟨hyp, (generate_dataset_rowcount_and_labels (fun _ => (0 : ℚ))
    (fun _ => AnomalyType.VOLTAGE_SAG) (fun _ => false) 2).2.2 hyp⟩

/--
Helper: under an engine that never raises, a primitive command list
runs to completion and its effect is the fold of the command effects.
-/
theorem runCmds_noRaise (cs : List DssCmd) :
    ∀ (k : ℕ) (s : EngState),
      runCmds noRaise cs k s = (cs.foldl (fun t c => applyCmd c t) s, true) := by
  induction cs with
  | nil => intro k s; rfl
  | cons c cs ih =>
    intro k s
    simp only [runCmds, noRaise, List.foldl_cons]
    exact ih (k + 1) (applyCmd c s)

/--
C2 counterexample: running inject_voltage_sag against an engine whose
state capture raises (position 4 of the command list, right after the
first solve) aborts before the clearing block — the primitive fails
with the injected fault.sag_A still active, refuting the claim that
the disturbance-clearing step always executes.
-/
theorem voltage_sag_clear_skipped_on_capture_failure :
    (runCmds (fun k => k == 4) (voltage_sag_cmds "Bus220_1" ["A", "B", "C"]) 0
        { active := fun _ => false, freq := 50, mode := "snapshot" }).2 = false ∧
    (runCmds (fun k => k == 4) (voltage_sag_cmds "Bus220_1" ["A", "B", "C"]) 0
        { active := fun _ => false, freq := 50, mode := "snapshot" }).1.active
        "fault.sag_A" = true := by
  constructor <;> rfl

/--
C2 amended: the disturbance-clearing step of each injection primitive
(voltage sag, ground fault, harmonic injection, transformer overload,
frequency deviation, CT saturation) executes on the non-exceptional
path — against an engine that raises nowhere, each primitive completes
and fully restores the circuit model state (injected elements disabled,
frequency back at 50 Hz, snapshot mode) — but the primitives contain no
try/finally, so when solve or the state capture raises, the clear step
is skipped and the injected disturbance remains active.
-/
theorem injection_clear_step_on_no_exception (s : EngState) (bus transformer : String)
    (deviation_hz : ℚ)
    (hA : s.active "fault.sag_A" = false)
    (hB : s.active "fault.sag_B" = false)
    (hC : s.active "fault.sag_C" = false)
    (hG : s.active "fault.gnd_fault" = false)
    (h3 : s.active "isource.harm_3" = false)
    (h5 : s.active "isource.harm_5" = false)
    (h7 : s.active "isource.harm_7" = false)
    (hT : s.active ("load.overload_" ++ transformer) = false)
    (hS : s.active "fault.ct_sat_fault" = false)
    (hF : s.freq = 50)
    (hM : s.mode = "snapshot") :
    runCmds noRaise (voltage_sag_cmds bus ["A", "B", "C"]) 0 s = (s, true) ∧
    runCmds noRaise (ground_fault_cmds bus "A") 0 s = (s, true) ∧
    runCmds noRaise (harmonic_distortion_cmds bus [3, 5, 7]) 0 s = (s, true) ∧
    runCmds noRaise (transformer_overload_cmds transformer) 0 s = (s, true) ∧
    runCmds noRaise (frequency_deviation_cmds deviation_hz) 0 s = (s, true) ∧
    runCmds noRaise (ct_saturation_cmds bus) 0 s = (s, true) := by
  obtain ⟨act, fr, md⟩ := s
  simp only at hA hB hC hG h3 h5 h7 hT hS hF hM
  subst hF
  subst hM
  have hsag : voltage_sag_cmds bus ["A", "B", "C"] =
      [DssCmd.newElem "fault.sag_A", DssCmd.newElem "fault.sag_B",
       DssCmd.newElem "fault.sag_C", DssCmd.solve, DssCmd.capture,
       DssCmd.disableElem "fault.sag_A", DssCmd.disableElem "fault.sag_B",
       DssCmd.disableElem "fault.sag_C", DssCmd.solve] := rfl
  have hharm : harmonic_distortion_cmds bus [3, 5, 7] =
      [DssCmd.newElem "isource.harm_3", DssCmd.newElem "isource.harm_5",
       DssCmd.newElem "isource.harm_7", DssCmd.setMode "harmonics", DssCmd.solve,
       DssCmd.capture, DssCmd.disableElem "isource.harm_3",
       DssCmd.disableElem "isource.harm_5", DssCmd.disableElem "isource.harm_7",
       DssCmd.setMode "snapshot", DssCmd.solve] := rfl
  refine ⟨?_, ?_, ?_, ?_, ?_, ?_⟩
  · rw [hsag, runCmds_noRaise]
    simp only [List.foldl_cons, List.foldl_nil, applyCmd, Prod.mk.injEq,
      EngState.mk.injEq, and_true, true_and]
    funext m
    by_cases e1 : m = "fault.sag_A" <;> by_cases e2 : m = "fault.sag_B" <;>
      by_cases e3 : m = "fault.sag_C" <;> simp [e1, e2, e3, hA, hB, hC]
  · rw [runCmds_noRaise]
    simp only [ground_fault_cmds, List.foldl_cons, List.foldl_nil, applyCmd,
      Prod.mk.injEq, EngState.mk.injEq, and_true, true_and]
    funext m
    by_cases e1 : m = "fault.gnd_fault" <;> simp [e1, hG]
  · rw [hharm, runCmds_noRaise]
    simp only [List.foldl_cons, List.foldl_nil, applyCmd, Prod.mk.injEq,
      EngState.mk.injEq, and_true, true_and]
    funext m
    by_cases e1 : m = "isource.harm_3" <;> by_cases e2 : m = "isource.harm_5" <;>
      by_cases e3 : m = "isource.harm_7" <;> simp [e1, e2, e3, h3, h5, h7]
  · rw [runCmds_noRaise]
    simp only [transformer_overload_cmds, List.foldl_cons, List.foldl_nil, applyCmd,
      Prod.mk.injEq, EngState.mk.injEq, and_true, true_and]
    funext m
    by_cases e1 : m = "load.overload_" ++ transformer <;> simp [e1, hT]
  · rw [runCmds_noRaise]
    simp only [frequency_deviation_cmds, List.foldl_cons, List.foldl_nil, applyCmd]
  · rw [runCmds_noRaise]
    simp only [ct_saturation_cmds, List.foldl_cons, List.foldl_nil, applyCmd,
      Prod.mk.injEq, EngState.mk.injEq, and_true, true_and]
    funext m
    by_cases e1 : m = "fault.ct_sat_fault" <;> simp [e1, hS]

/--
C2 witness: a clean engine state (no temporary elements, 50 Hz,
snapshot mode) satisfies all freshness hypotheses, and the voltage sag
and frequency deviation primitives restore it exactly under a
non-raising engine.
-/
theorem injection_clear_step_on_no_exception_witness :
    ({ active := fun _ => false, freq := 50, mode := "snapshot" : EngState }).active
        "fault.sag_A" = false ∧
    ({ active := fun _ => false, freq := 50, mode := "snapshot" : EngState }).freq = 50 ∧
    runCmds noRaise (voltage_sag_cmds "Bus220_1" ["A", "B", "C"]) 0
        { active := fun _ => false, freq := 50, mode := "snapshot" }
      = ({ active := fun _ => false, freq := 50, mode := "snapshot" }, true) ∧
    runCmds noRaise (frequency_deviation_cmds (1 / 2)) 0
        { active := fun _ => false, freq := 50, mode := "snapshot" }
      = ({ active := fun _ => false, freq := 50, mode := "snapshot" }, true) := by
  have h := injection_clear_step_on_no_exception
    { active := fun _ => false, freq := 50, mode := "snapshot" } "Bus220_1" "TR1" (1 / 2)
    rfl rfl rfl rfl rfl rfl rfl rfl rfl rfl rfl
  exact ⟨rfl, rfl, h.1, h.2.2.2.2.1⟩
